import Mathlib

/-!
Shallow embedding of the countdown timer component
(src/countdown-timer.js) and verification of its specification.

The component is a JavaScript class.  Numbers that the code manipulates
are integers (millisecond deltas, unit counts, calendar years), so they
are modelled as Int.  The pad helper returns either a number or a
string (template literal), and several comparisons in the code apply
JavaScript coercion rules to such values, so padded values are modelled
by an explicit sum type JSVal together with the JavaScript comparison
semantics used by the code (relational coercion to number, strict
equality between a number and a string being false).
-/

/-- A JavaScript value flowing out of pad: either a number or a string. -/
inductive JSVal where
  | num (n : Int)
  | str (s : String)
deriving DecidableEq, BEq

/-- JavaScript ToNumber on the strings produced by pad: a nonempty string
of decimal digits denotes the corresponding number, anything else
(for example a string containing a minus sign) is NaN, modelled none. -/
def jsToNumber (s : String) : Option Int :=
  let cs := s.toList
  if cs ≠ [] ∧ cs.all (fun c => c.isDigit) then
    some ((cs.foldl (fun acc c => acc * 10 + (c.toNat - 48)) 0 : Nat) : Int)
  else none

/-- JavaScript relational comparison a < v where a is a number and v is a
number or a string: the string is coerced with ToNumber, and every
comparison with NaN is false. -/
def jsLtNum (a : Int) (v : JSVal) : Bool :=
  match v with
  | .num n => decide (a < n)
  | .str s =>
    match jsToNumber s with
    | some n => decide (a < n)
    | none => false

/-- JavaScript strict equality a === v between a number a and a value v:
false whenever v is a string, numeric equality otherwise. -/
def jsStrictEqNum (a : Int) (v : JSVal) : Bool :=
  match v with
  | .num n => a == n
  | .str _ => false

/-- Text of a value inside a template literal. -/
def jsValText : JSVal → String
  | .num n => toString n
  | .str s => s

/-- Per-unit configuration, as in the defaults object of the constructor. -/
structure UnitConfig where
  allowed : Bool
  singular : String
  plural : String
deriving DecidableEq

/-- The settings of a timer instance (Object.assign of defaults and
options).  Callbacks are modelled by their presence. -/
structure Settings where
  allowNegative : Bool
  padValues : Bool
  compact : Bool
  showZeroes : Bool
  onEndPresent : Bool
  onTickPresent : Bool
  years : UnitConfig
  weeks : UnitConfig
  days : UnitConfig
  hours : UnitConfig
  minutes : UnitConfig
  seconds : UnitConfig

/-- The defaults object of the constructor. -/
def defaultSettings : Settings where
  allowNegative := false
  padValues := false
  compact := false
  showZeroes := false
  onEndPresent := false
  onTickPresent := false
  years := ⟨true, "year", "years"⟩
  weeks := ⟨true, "week", "weeks"⟩
  days := ⟨true, "day", "days"⟩
  hours := ⟨true, "hour", "hours"⟩
  minutes := ⟨true, "minute", "minutes"⟩
  seconds := ⟨true, "second", "seconds"⟩

/-- pad: if settings.padValues, numbers below 10 become the string 0n
via a template literal, otherwise the number is returned unchanged. -/
def pad (padValues : Bool) (n : Int) : JSVal :=
  if padValues then
    if n < 10 then .str ("0" ++ toString n) else .num n
  else .num n

/-- The label choice of updateDisplay, line 431 of the source:
plural when 1 < value or 0 === value, else singular, with JavaScript
coercion semantics on the possibly padded value. -/
def labelFor (value : JSVal) (cfg : UnitConfig) : String :=
  if jsLtNum 1 value || jsStrictEqNum 0 value then cfg.plural else cfg.singular

/-- isLeapYear, line 457: 0 === year % 100 ? 0 === year % 400 : 0 === year % 4. -/
def isLeapYear (year : Int) : Bool :=
  if year % 100 == 0 then year % 400 == 0 else year % 4 == 0

def msPerSecond : Int := 1000

def msPerMinute : Int := 60 * msPerSecond

def msPerHour : Int := 60 * msPerMinute

def msPerDay : Int := 24 * msPerHour

/-- Advancing yearToCheck at the end of the year loop body: decrement
when the diff is negative, increment otherwise. -/
def advanceYear (isNegative : Bool) (y : Int) : Int :=
  if isNegative then y - 1 else y + 1

/-- The year-extraction while loop of formatDiff (lines 381 to 397),
with an explicit fuel counter: while yearToCheck is not finalYear and
365 <= days, increment years, subtract 366 or 365 from days according
to isLeapYear yearToCheck, and advance yearToCheck.  Running out of
fuel yields none; the termination theorem shows that with fuel above
the initial number of days this never happens. -/
def yearLoopF (isNegative : Bool) (finalYear : Int) :
    Nat → Int → Int → Int → Option (Int × Int)
  | 0, _, _, _ => none
  | fuel + 1, years, days, yearToCheck =>
    if yearToCheck ≠ finalYear ∧ 365 ≤ days then
      yearLoopF isNegative finalYear fuel (years + 1)
        (days - (if isLeapYear yearToCheck then 366 else 365))
        (advanceYear isNegative yearToCheck)
    else some (years, days)

/-- The week-extraction while loop of formatDiff (lines 403 to 415),
with fuel: while 7 <= days, subtract 7 from days and increment weeks;
when weeks reaches 52, reset weeks to 0 and increment years. -/
def weekLoopF : Nat → Int → Int → Int → Option (Int × Int × Int)
  | 0, _, _, _ => none
  | fuel + 1, years, weeks, days =>
    if 7 ≤ days then
      if 52 ≤ weeks + 1 then weekLoopF fuel (years + 1) 0 (days - 7)
      else weekLoopF fuel years (weeks + 1) (days - 7)
    else some (years, weeks, days)

/-- The six numeric components computed by formatDiff before padding. -/
structure Breakdown where
  years : Int
  weeks : Int
  days : Int
  hours : Int
  minutes : Int
  seconds : Int
deriving DecidableEq

/-- The numeric part of formatDiff (lines 359 to 417).  The host date
objects enter the computation only through getFullYear, so the target
timestamp and the current time are represented by their calendar years
finalYear and nowYear.  The fuel given to each loop exceeds the number
of days it starts from, which the termination theorem proves
sufficient, so the getD defaults are never used. -/
def formatDiffNums (milliseconds finalYear nowYear : Int) : Breakdown :=
  let absMs : Int := (milliseconds.natAbs : Int)
  let hours := absMs % msPerDay / msPerHour
  let minutes := absMs % msPerHour / msPerMinute
  let seconds := absMs % msPerMinute / msPerSecond
  let days0 := absMs / msPerDay
  let yr := (yearLoopF (milliseconds < 0) finalYear (days0.toNat + 1) 0 days0 nowYear).getD
    (0, days0)
  let wr := (weekLoopF (yr.2.toNat + 1) yr.1 0 yr.2).getD (yr.1, 0, yr.2)
  { years := wr.1, weeks := wr.2.1, days := wr.2.2,
    hours := hours, minutes := minutes, seconds := seconds }

/-- formatDiff returns the six values padded, in the fixed order
years, weeks, days, hours, minutes, seconds (line 417). -/
def formatDiff (padValues : Bool) (milliseconds finalYear nowYear : Int) : List JSVal :=
  let b := formatDiffNums milliseconds finalYear nowYear
  [pad padValues b.years, pad padValues b.weeks, pad padValues b.days,
   pad padValues b.hours, pad padValues b.minutes, pad padValues b.seconds]

/-- A child node of the timer element: one of the six unit spans
(indexed 0 years .. 5 seconds) or a separator text node. -/
inductive DomNode where
  | unit (i : Nat)
  | sep
deriving DecidableEq, BEq

/-- The children appended by createElements (lines 165 to 209): each
allowed unit span, followed by a separator when a later unit is also
allowed. -/
def createElementsDom (s : Settings) : List DomNode :=
  (if s.years.allowed then
    [DomNode.unit 0] ++
      (if s.weeks.allowed || s.days.allowed || s.hours.allowed || s.minutes.allowed
          || s.seconds.allowed then [DomNode.sep] else [])
   else []) ++
  (if s.weeks.allowed then
    [DomNode.unit 1] ++
      (if s.days.allowed || s.hours.allowed || s.minutes.allowed || s.seconds.allowed
        then [DomNode.sep] else [])
   else []) ++
  (if s.days.allowed then
    [DomNode.unit 2] ++
      (if s.hours.allowed || s.minutes.allowed || s.seconds.allowed
        then [DomNode.sep] else [])
   else []) ++
  (if s.hours.allowed then
    [DomNode.unit 3] ++
      (if s.minutes.allowed || s.seconds.allowed then [DomNode.sep] else [])
   else []) ++
  (if s.minutes.allowed then
    [DomNode.unit 4] ++ (if s.seconds.allowed then [DomNode.sep] else [])
   else []) ++
  (if s.seconds.allowed then [DomNode.unit 5] else [])

/-- Mutable display state of one timer: the children of the timer
element in order, the aria-hidden attribute of each of the six unit
spans (none when the attribute was never set), the aria-live attribute
of the timer, and the text content of each unit span. -/
structure TimerState where
  dom : List DomNode
  ariaHidden : List (Option Bool)
  ariaLive : Option String
  texts : List String
deriving DecidableEq

/-- State right after createElements: the seconds span carries
aria-hidden true (line 163), no other span has the attribute, and all
spans are empty. -/
def startState (s : Settings) : TimerState where
  dom := createElementsDom s
  ariaHidden := [none, none, none, none, none, some true]
  ariaLive := none
  texts := ["", "", "", "", "", ""]

/-- Removal performed by the scan for a leading zero unit (lines 248
to 254): remove the next sibling of the unit span when there is one,
then remove the span itself.  Callers check containment first. -/
def removeNextSiblingAndSelf (dom : List DomNode) (i : Nat) : List DomNode :=
  match dom.findIdx? (· == DomNode.unit i) with
  | some k =>
    (if k + 1 < dom.length then dom.eraseIdx (k + 1) else dom).erase (DomNode.unit i)
  | none => dom

/-- The parsedDiff.find callback loop (lines 238 to 256).  The callback
returns the value when 0 < remaining, which is truthy and stops the
find, so highestNonzero is the index of the first value above zero.
Until then each visited unit other than the seconds span is marked
aria-hidden, and, when showZeroes is off and the span is still in the
timer, removed together with its trailing separator. -/
def scanFind (showZeroes : Bool) :
    List JSVal → Nat → List DomNode → List (Option Bool) →
    Option Nat × List DomNode × List (Option Bool)
  | [], _, dom, ah => (none, dom, ah)
  | v :: rest, i, dom, ah =>
    if jsLtNum 0 v then (some i, dom, ah)
    else if i ≠ 5 then
      scanFind showZeroes rest (i + 1)
        (if !showZeroes && dom.contains (DomNode.unit i) then removeNextSiblingAndSelf dom i
         else dom)
        (ah.set i (some true))
    else scanFind showZeroes rest (i + 1) dom ah

/-- The aria-live policy chosen on lines 258 to 269: polite when the
highest nonzero interval is the last one (index 5, seconds), otherwise
polite exactly when 0 === parsedDiff[5] under strict equality, else
off. -/
def liveRegionOf (hn : Option Nat) (secondsVal : JSVal) : String :=
  if hn == some 5 then "polite"
  else if jsStrictEqNum 0 secondsVal then "polite" else "off"

/-- One step of the intervals.forEach on lines 275 to 290: with compact,
remove the previous sibling of the span when it has one; keep (or
re-append) the span at the highest nonzero index; with compact remove
every other span still contained in the timer. -/
def compactStep (compact : Bool) (hn : Nat) (dom : List DomNode) (i : Nat) : List DomNode :=
  let d1 :=
    if compact then
      match dom.findIdx? (· == DomNode.unit i) with
      | some k => if 0 < k then dom.eraseIdx (k - 1) else dom
      | none => dom
    else dom
  if hn == i then
    if d1.contains (DomNode.unit i) then d1 else d1 ++ [DomNode.unit i]
  else if compact && d1.contains (DomNode.unit i) then d1.erase (DomNode.unit i)
  else d1

/-- The block guarded by undefined !== highestNonzero (lines 272 to 291). -/
def applyCompact (compact : Bool) (hn : Option Nat) (dom : List DomNode) : List DomNode :=
  match hn with
  | some h => List.foldl (compactStep compact h) dom [0, 1, 2, 3, 4, 5]
  | none => dom

/-- updateDisplay (lines 428 to 436): when the span is still in the
timer, set its text to the value followed by the singular or plural
label. -/
def updateDisplay (dom : List DomNode) (texts : List String) (i : Nat)
    (value : JSVal) (cfg : UnitConfig) : List String :=
  if dom.contains (DomNode.unit i) then
    texts.set i (jsValText value ++ " " ++ labelFor value cfg)
  else texts

/-- The six updateDisplay calls of the terminal branch (lines 295 to
300), each with the number 0. -/
def zeroTexts (s : Settings) (dom : List DomNode) (texts : List String) : List String :=
  let t1 := updateDisplay dom texts 0 (.num 0) s.years
  let t2 := updateDisplay dom t1 1 (.num 0) s.weeks
  let t3 := updateDisplay dom t2 2 (.num 0) s.days
  let t4 := updateDisplay dom t3 3 (.num 0) s.hours
  let t5 := updateDisplay dom t4 4 (.num 0) s.minutes
  updateDisplay dom t5 5 (.num 0) s.seconds

/-- The six updateDisplay calls of the normal path (lines 321 to 326),
with the destructured parsedDiff values. -/
def tickTexts (s : Settings) (dom : List DomNode) (texts : List String)
    (vals : List JSVal) : List String :=
  let t1 := updateDisplay dom texts 0 (vals.getD 0 (.num 0)) s.years
  let t2 := updateDisplay dom t1 1 (vals.getD 1 (.num 0)) s.weeks
  let t3 := updateDisplay dom t2 2 (vals.getD 2 (.num 0)) s.days
  let t4 := updateDisplay dom t3 3 (vals.getD 3 (.num 0)) s.hours
  let t5 := updateDisplay dom t4 4 (vals.getD 4 (.num 0)) s.minutes
  updateDisplay dom t5 5 (vals.getD 5 (.num 0)) s.seconds

/-- Exceptions the tick can raise: reading the repeat binding before
its const declaration is executed throws a ReferenceError. -/
inductive JSError where
  | tdzRepeat
deriving DecidableEq

/-- Observable outcome of one updateTime call. -/
structure TickResult where
  dom : List DomNode
  ariaHidden : List (Option Bool)
  ariaLive : String
  texts : List String
  highestNonzero : Option Nat
  onEndInvoked : Bool
  onTickInvoked : Bool
  intervalCleared : Bool
deriving DecidableEq

/-- updateTime (lines 228 to 346).  repeatDefined records whether the
const repeat binding of startTimer has been assigned yet: the first,
synchronous call on line 348 runs with it unassigned, so the guard
if (repeat) on line 303 throws a ReferenceError there; an error result
carries the display state at the moment of the throw.  The host clock
and Date objects enter only as the two timestamps and their calendar
years. -/
def updateTime (s : Settings) (time nowMs finalYear nowYear : Int)
    (repeatDefined : Bool) (st : TimerState) :
    Except (JSError × TickResult) TickResult :=
  let parsedDiff := formatDiff s.padValues (time - nowMs) finalYear nowYear
  let scanRes := scanFind s.showZeroes parsedDiff 0 st.dom st.ariaHidden
  let hn := scanRes.1
  let ariaLive := liveRegionOf hn (parsedDiff.getD 5 (.num 0))
  let ah2 := if hn == some 5 then scanRes.2.2.set 5 (some false) else scanRes.2.2
  let dom2 := applyCompact s.compact hn scanRes.2.1
  if time - nowMs ≤ 0 ∧ s.allowNegative = false then
    let r : TickResult :=
      ⟨dom2, ah2, ariaLive, zeroTexts s dom2 st.texts, hn, false, false, false⟩
    if repeatDefined then
      Except.ok { r with onEndInvoked := s.onEndPresent, intervalCleared := true }
    else Except.error (JSError.tdzRepeat, r)
  else
    Except.ok ⟨dom2, ah2, ariaLive, tickTexts s dom2 st.texts parsedDiff, hn,
      false, s.onTickPresent, false⟩

/-- Whether a tick raised an exception. -/
def tickErrored : Except (JSError × TickResult) TickResult → Bool
  | .error _ => true
  | .ok _ => false

/-- Whether onEnd was invoked during the tick. -/
def onEndOf : Except (JSError × TickResult) TickResult → Bool
  | .error (_, r) => r.onEndInvoked
  | .ok r => r.onEndInvoked

/-- The tick outcome, also in the error case (attributes and texts set
before the throw). -/
def resultOf : Except (JSError × TickResult) TickResult → TickResult
  | .error (_, r) => r
  | .ok r => r

/-- The first, synchronous updateTime call issued by startTimer on line
348, before the const repeat binding of line 350 is assigned.  The
current time is taken as origin, so diff is the given delta, and both
calendar years are 2024. -/
def runFirst (s : Settings) (diff : Int) : Except (JSError × TickResult) TickResult :=
  updateTime s diff 0 2024 2024 false (startState s)

/-- The datetime validation of createTimer (lines 106 to 110): the
parsed time is none when getTime returned NaN; when it is falsy or NaN
the current time is substituted and an error is logged (second
component). -/
def createTimerTime (parsed : Option Int) (nowMs : Int) : Int × Bool :=
  match parsed with
  | none => (nowMs, true)
  | some t => if t = 0 then (nowMs, true) else (t, false)

/-- createTimer followed by the first synchronous tick: validate the
datetime, then run updateTime with the repeat binding still
unassigned, starting from the freshly created elements. -/
def createTimerFirstTick (s : Settings) (parsed : Option Int)
    (nowMs finalYear nowYear : Int) : Except (JSError × TickResult) TickResult :=
  updateTime s (createTimerTime parsed nowMs).1 nowMs finalYear nowYear false (startState s)

/-- Default settings with padValues enabled. -/
def padSettings : Settings := { defaultSettings with padValues := true }

/-- Default settings with the years unit not allowed. -/
def noYearsSettings : Settings := { defaultSettings with years := ⟨false, "year", "years"⟩ }

/-- Default settings with an onEnd callback supplied. -/
def endSettings : Settings := { defaultSettings with onEndPresent := true }

lemma msPerDay_eq : msPerDay = 86400000 := by
  norm_num [msPerDay, msPerHour, msPerMinute, msPerSecond]

lemma msPerHour_eq : msPerHour = 3600000 := by
  norm_num [msPerHour, msPerMinute, msPerSecond]

lemma msPerMinute_eq : msPerMinute = 60000 := by norm_num [msPerMinute, msPerSecond]

lemma msPerSecond_eq : msPerSecond = 1000 := by norm_num [msPerSecond]

lemma yearLoopF_spec (neg : Bool) (fy : Int) :
    ∀ (fuel : Nat) (years days cursor : Int), days.toNat < fuel →
    ∃ y d, yearLoopF neg fy fuel years days cursor = some (y, d) ∧
      years ≤ y ∧ (-1 ≤ days → -1 ≤ d) := by
  intro fuel
  induction fuel with
  | zero => intro years days cursor h; omega
  | succ m ih =>
    intro years days cursor h
    by_cases hg : cursor ≠ fy ∧ 365 ≤ days
    · rw [yearLoopF, if_pos hg]
      cases hL : isLeapYear cursor
      · simp only [hL, Bool.false_eq_true, if_neg, ite_false]
        obtain ⟨y, d, hEq, hy, hd⟩ :=
          ih (years + 1) (days - 365) (advanceYear neg cursor) (by omega)
        exact ⟨y, d, hEq, by omega, fun _ => hd (by omega)⟩
      · simp only [hL, ite_true]
        obtain ⟨y, d, hEq, hy, hd⟩ :=
          ih (years + 1) (days - 366) (advanceYear neg cursor) (by omega)
        exact ⟨y, d, hEq, by omega, fun _ => hd (by omega)⟩
    · rw [yearLoopF, if_neg hg]
      exact ⟨years, days, rfl, le_refl _, fun hh => hh⟩

lemma weekLoopF_spec :
    ∀ (fuel : Nat) (years weeks days : Int), days.toNat < fuel →
    0 ≤ years → 0 ≤ weeks → weeks < 52 →
    ∃ y w d, weekLoopF fuel years weeks days = some (y, w, d) ∧
      0 ≤ y ∧ 0 ≤ w ∧ w < 52 ∧ d < 7 ∧ (-1 ≤ days → -1 ≤ d) := by
  intro fuel
  induction fuel with
  | zero => intro years weeks days h; omega
  | succ m ih =>
    intro years weeks days h hy hw1 hw2
    by_cases hg : (7 : Int) ≤ days
    · rw [weekLoopF, if_pos hg]
      by_cases h52 : (52 : Int) ≤ weeks + 1
      · rw [if_pos h52]
        obtain ⟨y, w, d, hEq, hy2, hw3, hw4, hd7, hdm⟩ :=
          ih (years + 1) 0 (days - 7) (by omega) (by omega) (by omega) (by omega)
        exact ⟨y, w, d, hEq, hy2, hw3, hw4, hd7, fun _ => hdm (by omega)⟩
      · rw [if_neg h52]
        obtain ⟨y, w, d, hEq, hy2, hw3, hw4, hd7, hdm⟩ :=
          ih years (weeks + 1) (days - 7) (by omega) (by omega) (by omega) (by omega)
        exact ⟨y, w, d, hEq, hy2, hw3, hw4, hd7, fun _ => hdm (by omega)⟩
    · rw [weekLoopF, if_neg hg]
      exact ⟨years, weeks, days, rfl, hy, hw1, hw2, by omega, fun hh => hh⟩

/-- Index of the first value above zero, the value scanFind assigns to
highestNonzero. -/
def firstPositiveIdx : List JSVal → Option Nat
  | [] => none
  | v :: rest => if jsLtNum 0 v then some 0 else (firstPositiveIdx rest).map (· + 1)

lemma scanFind_fst (sz : Bool) :
    ∀ (vals : List JSVal) (i : Nat) (dom : List DomNode) (ah : List (Option Bool)),
    (scanFind sz vals i dom ah).1 = (firstPositiveIdx vals).map (· + i) := by
  intro vals
  induction vals with
  | nil => intro i dom ah; simp [scanFind, firstPositiveIdx]
  | cons v rest ih =>
    intro i dom ah
    by_cases hv : jsLtNum 0 v = true
    · simp [scanFind, firstPositiveIdx, hv]
    · simp only [scanFind, firstPositiveIdx]
      rw [if_neg hv, if_neg hv]
      by_cases hi : i = 5
      · subst hi
        rw [if_neg (fun h => h rfl), ih]
        cases firstPositiveIdx rest with
        | none => simp
        | some a => rfl
      · rw [if_pos hi, ih]
        cases firstPositiveIdx rest with
        | none => simp
        | some a => simp only [Option.map_some']; congr 1; omega

lemma removeNextSiblingAndSelf_sublist (dom : List DomNode) (i : Nat) :
    List.Sublist (removeNextSiblingAndSelf dom i) dom := by
  unfold removeNextSiblingAndSelf
  split
  next k hk =>
    have h1 : List.Sublist (if k + 1 < dom.length then dom.eraseIdx (k + 1) else dom) dom := by
      split
      · exact List.eraseIdx_sublist _ _
      · exact List.Sublist.refl dom
    exact (List.erase_sublist _ _).trans h1
  next hk => exact List.Sublist.refl dom

lemma scanFind_dom_sublist (sz : Bool) :
    ∀ (vals : List JSVal) (i : Nat) (dom : List DomNode) (ah : List (Option Bool)),
    List.Sublist (scanFind sz vals i dom ah).2.1 dom := by
  intro vals
  induction vals with
  | nil => intro i dom ah; exact List.Sublist.refl dom
  | cons v rest ih =>
    intro i dom ah
    by_cases hv : jsLtNum 0 v = true
    · simp [scanFind, hv]
    · simp only [scanFind]
      rw [if_neg hv]
      by_cases hi : i = 5
      · subst hi
        rw [if_neg (fun h => h rfl)]
        exact ih 6 dom ah
      · rw [if_pos hi]
        refine (ih (i + 1) _ _).trans ?_
        split
        · exact removeNextSiblingAndSelf_sublist dom i
        · exact List.Sublist.refl dom

lemma scanFind_ah_five (sz : Bool) :
    ∀ (vals : List JSVal) (i : Nat) (dom : List DomNode) (ah : List (Option Bool)),
    (scanFind sz vals i dom ah).2.2.getD 5 none = ah.getD 5 none := by
  intro vals
  induction vals with
  | nil => intro i dom ah; rfl
  | cons v rest ih =>
    intro i dom ah
    by_cases hv : jsLtNum 0 v = true
    · simp [scanFind, hv]
    · simp only [scanFind]
      rw [if_neg hv]
      by_cases hi : i = 5
      · subst hi
        rw [if_neg (fun h => h rfl)]
        exact ih 6 dom ah
      · rw [if_pos hi, ih]
        simp [List.getD, List.getElem?_set_ne hi]

lemma jsToNumber_padStr (n : Int) (h0 : 0 ≤ n) (h9 : n < 10) :
    jsToNumber ("0" ++ toString n) = some n := by
  interval_cases n <;> decide

lemma toString_neg_int (n : Int) (h : n < 0) : ∃ t, toString n = "-" ++ t := by
  cases n with
  | ofNat m => exact absurd h (Int.not_lt.mpr (Int.ofNat_nonneg m))
  | negSucc m => exact ⟨Nat.repr (m + 1), rfl⟩

lemma jsToNumber_padStr_neg (n : Int) (h : n < 0) :
    jsToNumber ("0" ++ toString n) = none := by
  obtain ⟨t, ht⟩ := toString_neg_int n h
  rw [ht]
  unfold jsToNumber
  have hchars : ("0" ++ ("-" ++ t)).toList = '0' :: '-' :: t.toList := by cases t; rfl
  rw [if_neg]
  intro hcond
  rw [hchars] at hcond
  simp at hcond

lemma jsLtNum_pad_small (a n : Int) (h0 : 0 ≤ n) (h9 : n < 10) :
    jsLtNum a (pad true n) = decide (a < n) := by
  simp [pad, if_pos h9, jsLtNum, jsToNumber_padStr n h0 h9]

lemma jsLtNum_pad_neg (a n : Int) (h : n < 0) :
    jsLtNum a (pad true n) = false := by
  simp [pad, if_pos (show n < 10 by omega), jsLtNum, jsToNumber_padStr_neg n h]

lemma jsLtNum_pad_big (a n : Int) (h : 10 ≤ n) :
    jsLtNum a (pad true n) = decide (a < n) := by
  simp [pad, if_neg (show ¬ n < 10 by omega), jsLtNum]

lemma jsStrictEqNum_pad_small (a n : Int) (h9 : n < 10) :
    jsStrictEqNum a (pad true n) = false := by
  simp [pad, if_pos h9, jsStrictEqNum]

lemma jsStrictEqNum_pad_big (a n : Int) (h : 10 ≤ n) :
    jsStrictEqNum a (pad true n) = (a == n) := by
  simp [pad, if_neg (show ¬ n < 10 by omega), jsStrictEqNum]

lemma pad_false (n : Int) : pad false n = .num n := by
  simp [pad]

/-- C10: for a timer whose target is at or before the current time with
allowNegative false, the first display update, which runs before the
interval handle binding repeat is assigned, reads that binding inside
its temporal dead zone and aborts with a ReferenceError, so the onEnd
hook is never reached on that call. -/
theorem c10_first_tick_tdz :
    ∀ (s : Settings) (time nowMs finalYear nowYear : Int) (st : TimerState),
    time - nowMs ≤ 0 → s.allowNegative = false →
    tickErrored (updateTime s time nowMs finalYear nowYear false st) = true ∧
    onEndOf (updateTime s time nowMs finalYear nowYear false st) = false := by
  intro s time nowMs fy ny st h1 h2
  unfold updateTime
  dsimp only
  rw [if_pos ⟨h1, h2⟩]
  exact ⟨rfl, rfl⟩

/-- Witness for C10 at a concrete expired timer. -/
theorem c10_first_tick_tdz_witness :
    tickErrored (updateTime endSettings 1000 1000 2024 2024 false
      (startState endSettings)) = true ∧
    onEndOf (updateTime endSettings 1000 1000 2024 2024 false
      (startState endSettings)) = false :=
  c10_first_tick_tdz endSettings 1000 1000 2024 2024 (startState endSettings)
    (by decide) (by decide)

/-- C1 evaluation: an already expired timer with an onEnd callback and
allowNegative false raises on the immediate first recomputation instead
of stopping cleanly and invoking onEnd; onEnd is not invoked. -/
theorem c1_expired_first_tick_raises :
    tickErrored (runFirst endSettings 0) = true ∧
    onEndOf (runFirst endSettings 0) = false ∧
    endSettings.onEndPresent = true ∧
    endSettings.allowNegative = false := by
  decide

/-- C7 evaluation: a missing or unparsable datetime makes createTimer
substitute the current time and report the error, but then the first
synchronous update sees a non-positive delta and raises a
ReferenceError that propagates to the caller of the constructor. -/
theorem c7_invalid_datetime_raises :
    (createTimerTime none 1700000000000).1 = 1700000000000 ∧
    (createTimerTime none 1700000000000).2 = true ∧
    tickErrored (createTimerFirstTick defaultSettings none 1700000000000 2023 2023)
      = true := by
  decide

/-- C8: the calendar aware year extraction loop terminates: while the
guard requires at least 365 days, each iteration decreases days by at
least 365, so fuel above the initial day count always suffices and the
decomposition is total. -/
theorem c8_year_loop_terminates :
    (∀ (cursor days : Int), 365 ≤ days →
      days - (if isLeapYear cursor then 366 else 365) ≤ days - 365) ∧
    (∀ (neg : Bool) (fy : Int) (fuel : Nat) (years days cursor : Int),
      days.toNat < fuel →
      (yearLoopF neg fy fuel years days cursor).isSome = true) := by
  constructor
  · intro cursor days h
    split <;> omega
  · intro neg fy fuel years days cursor h
    obtain ⟨y, d, hEq, _, _⟩ := yearLoopF_spec neg fy fuel years days cursor h
    rw [hEq]
    rfl

/-- Witness for C8 at a concrete loop state. -/
theorem c8_year_loop_terminates_witness :
    (365 : Int) - (if isLeapYear 2024 then 366 else 365) ≤ 365 - 365 ∧
    (yearLoopF false 2025 366 0 365 2024).isSome = true :=
  ⟨c8_year_loop_terminates.1 2024 365 (by decide),
   c8_year_loop_terminates.2 false 2025 366 0 365 2024 (by decide)⟩

/-- C9: the leap year predicate agrees with divisibility by 400, or by
4 but not by 100, for every integer year, and classifies 2000, 2024,
1900 and 2023 as documented. -/
theorem c9_leap_year :
    (∀ year : Int, isLeapYear year = true ↔
      (400 ∣ year ∨ (4 ∣ year ∧ ¬ (100 ∣ year)))) ∧
    isLeapYear 2000 = true ∧ isLeapYear 2024 = true ∧
    isLeapYear 1900 = false ∧ isLeapYear 2023 = false := by
  refine ⟨fun y => ?_, by decide, by decide, by decide, by decide⟩
  rw [Int.dvd_iff_emod_eq_zero, Int.dvd_iff_emod_eq_zero, Int.dvd_iff_emod_eq_zero]
  by_cases h : y % 100 = 0
  · simp [isLeapYear, beq_iff_eq, h]
  · simp only [isLeapYear, beq_iff_eq, h, ite_false, if_neg h, decide_eq_true_eq]
    constructor
    · intro h4
      exact Or.inr ⟨h4, not_false⟩
    · rintro (h400 | ⟨h4, _⟩)
      · omega
      · exact h4

/-- C3 counterexample: at a delta of exactly 365 days counted from a
leap year into the following year, the year loop subtracts 366 and the
days component of the breakdown becomes minus one, violating the
claimed bound 0 <= days. -/
theorem c3_counterexample :
    (formatDiffNums 31536000000 2025 2024).days = -1 ∧
    (formatDiffNums 31536000000 2025 2024).days < 0 := by
  decide

/-- C3 amended: for every integer delta and every pair of calendar
years, the breakdown satisfies years >= 0, 0 <= weeks < 52,
-1 <= days < 7, 0 <= hours < 24, 0 <= minutes < 60 and
0 <= seconds < 60; the lower bound on days is -1, not 0. -/
theorem c3_amended : ∀ milliseconds finalYear nowYear : Int,
    0 ≤ (formatDiffNums milliseconds finalYear nowYear).years ∧
    0 ≤ (formatDiffNums milliseconds finalYear nowYear).weeks ∧
    (formatDiffNums milliseconds finalYear nowYear).weeks < 52 ∧
    -1 ≤ (formatDiffNums milliseconds finalYear nowYear).days ∧
    (formatDiffNums milliseconds finalYear nowYear).days < 7 ∧
    0 ≤ (formatDiffNums milliseconds finalYear nowYear).hours ∧
    (formatDiffNums milliseconds finalYear nowYear).hours < 24 ∧
    0 ≤ (formatDiffNums milliseconds finalYear nowYear).minutes ∧
    (formatDiffNums milliseconds finalYear nowYear).minutes < 60 ∧
    0 ≤ (formatDiffNums milliseconds finalYear nowYear).seconds ∧
    (formatDiffNums milliseconds finalYear nowYear).seconds < 60 := by
  intro ms fy ny
  have habs : (0 : Int) ≤ (ms.natAbs : Int) := Int.natCast_nonneg _
  unfold formatDiffNums
  dsimp only
  obtain ⟨y1, d1, hY, hy1, hd1⟩ :=
    yearLoopF_spec (ms < 0) fy (((ms.natAbs : Int) / msPerDay).toNat + 1) 0
      ((ms.natAbs : Int) / msPerDay) ny (by omega)
  rw [hY]
  simp only [Option.getD_some]
  obtain ⟨y2, w2, d2, hW, hy2, hw2, hw3, hd7, hdm⟩ :=
    weekLoopF_spec (d1.toNat + 1) y1 0 d1 (by omega) (by omega) (by omega) (by omega)
  rw [hW]
  simp only [Option.getD_some]
  have hdbound : -1 ≤ d1 := hd1 (by rw [msPerDay_eq]; omega)
  have hd2 : -1 ≤ d2 := hdm hdbound
  refine ⟨by omega, by omega, by omega, by omega, by omega, ?_, ?_, ?_, ?_, ?_, ?_⟩ <;>
    simp only [msPerDay_eq, msPerHour_eq, msPerMinute_eq, msPerSecond_eq] <;> omega

/-- C2 counterexample: with the years unit not allowed, a tick whose
breakdown is one year and nothing else still selects the disallowed
years unit as highest nonzero (the claim expects undefined, since every
allowed unit is zero), and a tick with only seconds nonzero marks the
detached, disallowed years span aria-hidden (the claim says a
disallowed unit is never marked hidden). -/
theorem c2_counterexample :
    noYearsSettings.years.allowed = false ∧
    (resultOf (runFirst noYearsSettings 31449600000)).highestNonzero = some 0 ∧
    (formatDiffNums 31449600000 2024 2024).years = 1 ∧
    (resultOf (runFirst noYearsSettings 1000)).ariaHidden.getD 0 none = some true := by
  decide

/-- C2 amended: the scan considers all six units in the fixed order
regardless of allowed; highestNonzero is the index of the first unit
value above zero, undefined when none is; the scan only ever removes
nodes already contained in the timer (so a disallowed unit, never
inserted, is never removed), and it never touches the aria-hidden
attribute of the seconds unit. -/
theorem c2_amended :
    ∀ (sz : Bool) (vals : List JSVal) (dom : List DomNode) (ah : List (Option Bool)),
    (scanFind sz vals 0 dom ah).1 = firstPositiveIdx vals ∧
    List.Sublist (scanFind sz vals 0 dom ah).2.1 dom ∧
    (scanFind sz vals 0 dom ah).2.2.getD 5 none = ah.getD 5 none := by
  intro sz vals dom ah
  refine ⟨?_, scanFind_dom_sublist sz vals 0 dom ah, scanFind_ah_five sz vals 0 dom ah⟩
  rw [scanFind_fst sz vals 0 dom ah]
  cases firstPositiveIdx vals <;> simp

/-- C4 counterexample: for the breakdown 0 years, 0 weeks, 0 days,
0 hours, 1 minute, 30 seconds with all units allowed, the minutes unit
is the highest nonzero and the seconds span stays in the timer, but its
aria-hidden attribute is the string true set at creation, not false as
the claim states: it is only set to false when seconds is itself the
highest nonzero unit. -/
theorem c4_counterexample :
    (formatDiffNums 90000 2024 2024).minutes = 1 ∧
    (formatDiffNums 90000 2024 2024).seconds = 30 ∧
    (resultOf (runFirst defaultSettings 90000)).highestNonzero = some 4 ∧
    (resultOf (runFirst defaultSettings 90000)).dom.contains (DomNode.unit 5) = true ∧
    (resultOf (runFirst defaultSettings 90000)).ariaHidden.getD 5 none = some true := by
  decide

/-- C4 amended: on the breakdown 0,0,0,0,1,30 the minutes unit is the
highest nonzero and the seconds unit is shown in the rendered sequence;
the leading-zero suppression scan never changes the aria-hidden
attribute of the seconds unit, but that attribute keeps the value true
given to it at creation whenever seconds is not the highest nonzero
unit, so it is not false here. -/
theorem c4_amended :
    ((resultOf (runFirst defaultSettings 90000)).highestNonzero = some 4 ∧
     (resultOf (runFirst defaultSettings 90000)).dom.contains (DomNode.unit 5) = true ∧
     (resultOf (runFirst defaultSettings 90000)).ariaHidden.getD 5 none = some true) ∧
    (∀ (sz : Bool) (vals : List JSVal) (i : Nat) (dom : List DomNode)
      (ah : List (Option Bool)),
      (scanFind sz vals i dom ah).2.2.getD 5 none = ah.getD 5 none) := by
  refine ⟨by decide, ?_⟩
  intro sz vals i dom ah
  exact scanFind_ah_five sz vals i dom ah

/-- C5 counterexample: with padValues true and a breakdown of exactly
one minute (seconds value 0, highest nonzero is minutes), the padded
seconds value is the string 00, the strict equality 0 === parsedDiff[5]
fails, and the live region policy is off although the claim requires
polite whenever the seconds value is 0. -/
theorem c5_counterexample :
    (formatDiffNums 60000 2024 2024).seconds = 0 ∧
    (resultOf (runFirst padSettings 60000)).highestNonzero = some 4 ∧
    (resultOf (runFirst padSettings 60000)).ariaLive = "off" := by
  decide

/-- C5 amended: when the highest nonzero unit is the seconds unit the
policy is polite; otherwise with padValues false the policy is polite
exactly when the seconds value is 0, while with padValues true the
padded seconds value is a string below 10, the strict zero test always
fails, and the policy is off whatever the seconds value. -/
theorem c5_amended : ∀ (hn : Option Nat) (n : Int),
    liveRegionOf hn (pad false n) = (if hn = some 5 ∨ n = 0 then "polite" else "off") ∧
    liveRegionOf hn (pad true n) = (if hn = some 5 then "polite" else "off") := by
  intro hn n
  by_cases h5 : hn = some 5
  · subst h5
    constructor
    · simp [liveRegionOf]
    · simp [liveRegionOf]
  · have hbeq : (hn == some 5) = false := beq_eq_false_iff_ne.mpr h5
    constructor
    · simp only [liveRegionOf, pad_false, jsStrictEqNum, hbeq, Bool.false_eq_true, if_false]
      by_cases h0 : n = 0
      · simp [h0, h5]
      · simp [h5, h0, beq_iff_eq, show ¬ ((0 : Int) = n) from fun hh => h0 hh.symm]
    · by_cases hlt : n < 10
      · rw [liveRegionOf, jsStrictEqNum_pad_small 0 n hlt]
        simp [hbeq, h5]
      · rw [liveRegionOf, jsStrictEqNum_pad_big 0 n (by omega)]
        simp [hbeq, h5, beq_iff_eq, show ¬ ((0 : Int) = n) by omega]

/-- C6 counterexample: with padValues true a zero value is padded to
the string 00; the strict equality 0 === value then fails and the
rendered label is the singular one, although the claim requires the
plural label for the value 0 also when padValues is true. -/
theorem c6_counterexample :
    labelFor (pad true 0) (UnitConfig.mk true "second" "seconds") = "second" ∧
    (labelFor (pad true 0) (UnitConfig.mk true "second" "seconds")
      == (UnitConfig.mk true "second" "seconds").plural) = false := by
  decide

/-- C6 amended: with padValues false the claimed rule holds, the plural
label is used exactly when the value is above 1 or equal to 0; with
padValues true, values below 10 are padded to strings, the strict zero
test fails, and the singular label is used for both 0 and 1 while the
plural label is used exactly when the value is above 1. -/
theorem c6_amended : ∀ (cfg : UnitConfig) (n : Int),
    labelFor (pad false n) cfg = (if 1 < n ∨ n = 0 then cfg.plural else cfg.singular) ∧
    labelFor (pad true n) cfg = (if 1 < n then cfg.plural else cfg.singular) := by
  intro cfg n
  constructor
  · simp only [labelFor, pad_false, jsLtNum, jsStrictEqNum]
    by_cases h1 : (1 : Int) < n
    · simp [h1]
    · by_cases h0 : n = 0
      · simp [h0]
      · simp [h1, h0, beq_iff_eq, show ¬ ((0 : Int) = n) from fun hh => h0 hh.symm]
  · by_cases hlt : n < 10
    · by_cases h0 : (0 : Int) ≤ n
      · rw [labelFor, jsLtNum_pad_small 1 n h0 hlt, jsStrictEqNum_pad_small 0 n hlt]
        by_cases h1 : (1 : Int) < n <;> simp [h1]
      · rw [labelFor, jsLtNum_pad_neg 1 n (by omega), jsStrictEqNum_pad_small 0 n hlt]
        simp [show ¬ ((1 : Int) < n) by omega]
    · rw [labelFor, jsLtNum_pad_big 1 n (by omega), jsStrictEqNum_pad_big 0 n (by omega)]
      simp [show (1 : Int) < n by omega, show ¬ ((0 : Int) = n) by omega, beq_iff_eq]
